import Mathlib

/-! Gladmir/bus: the facade (`bus.go`) and endpoint validation (`endpoints.go`).

A shallow embedding of the package-level entry points `Dial`, `StopServing`,
`StopServingAll` and `Stop`, and of the helpers `resolveAddress`,
`evalAddressAndKey` and `createBuckets`.

Conventions of the embedding.

* A Go call either returns its result tuple (`Outcome.ret`) or stops with a
  run-time panic (`Outcome.fault`).
* The three package-level maps are association lists; the order of a list is the
  order in which a `range` loop visits the map, so a statement for every list
  covers every iteration order.
* Calls that leave the package (the transport `dial`, `Close` on a context,
  the send on a listener's quit channel, `Close` on a listener, the
  `ResultFunc` callback) append an `Effect` to the trace of the state.
* `net.LookupHost` and the transport `dial` are parameters (`Net`).
-/

namespace Bus

/-! ## Values -/

/-- A Go `error` value. The package-level values made by `errors.New` in `bus.go`
are `sentinel`s (told apart by their text, which is different for each of them);
errors made while running (host lookup, transport, `fmt.Sprintf`) are `dynamic`. -/
inductive GoError where
  | sentinel (text : String)
  | dynamic (text : String)
  deriving DecidableEq

def BusError_InvalidTransport : GoError := .sentinel "Invalid transport"
def BusError_DestInfoMissing : GoError := .sentinel "Missing fqdn/ip or port"
def BusError_EndpointAlreadyRegistered : GoError := .sentinel "Endpoint already registered"
def BusError_MissingPrototypeInstance : GoError := .sentinel "Prototype instance is missing"
def BusError_MissingMessageHandler : GoError :=
  .sentinel "Missing message handler implementation"

/-- The result of running a Go function: its result tuple, or a run-time panic. -/
inductive Outcome (α : Type) where
  | ret (a : α)
  | fault (msg : String)
  deriving DecidableEq

/-- The type `ThrottlingStrategy` of `endpoints.go` (a string). -/
abbrev ThrottlingStrategy := String

def BusTs_MPS : ThrottlingStrategy := "Message-Per-Second"
def BusTs_BPS : ThrottlingStrategy := "Bytes-Per-Second"

/-- The struct `ThrottlingCriteria` of `endpoints.go`. -/
structure ThrottlingCriteria where
  Strategy : ThrottlingStrategy
  IncomingLimitPerSecond : Int
  OutgoingLimitPerSecond : Int
  deriving DecidableEq

/-- The struct `Endpoint` of `endpoints.go`. The three interface-typed fields hold
`none` for a nil interface and `some h` for an implementation with handle `h`. -/
structure Endpoint where
  Id : String
  Address : String
  Port : Int
  FQDN : String
  Transport : String
  BufferSize : Int
  Origin : String
  ResourceUrl : String
  ShouldReconnect : Bool
  MaxAttemptCount : Int
  DelayDuration : Int
  Prototype : Option Nat
  ThrottlingCriteria : ThrottlingCriteria
  MessageHandler : Option Nat
  ContextHandler : Option Nat
  deriving DecidableEq

/-- The struct `listenerShutdown` of `endpoints.go`: handles of the listener `l`
and of the quit channel `q`. -/
structure listenerShutdown where
  l : Nat
  q : Nat
  deriving DecidableEq

/-- Modelled from the spec: the lifecycle states of a connection context (the
declaration of `Opening` is not in the source files at hand). -/
inductive ContextState where
  | Opening | Open | Closing | Closed | Reconnecting | Failed
  deriving DecidableEq

/-- Modelled from the spec: the leaky bucket made by `newLeakyBucket(capacity, rate)`
(its declaration is not in the source files at hand). -/
structure leakyBucket where
  capacity : Int
  rate : Int
  deriving DecidableEq

/-- Modelled from the spec: `newLeakyBucket`, which is called by `createBuckets`
and is not in the source files at hand. -/
def newLeakyBucket (capacity rate : Int) : leakyBucket :=
  { capacity := capacity, rate := rate }

/-- A Go channel, by its capacity. -/
structure Chan where
  cap : Nat
  deriving DecidableEq

/-- The limit `maxAlloc` of the Go runtime on a 64-bit platform (48 address bits). -/
def maxAlloc : Int := 281474976710656

/-- The size `hchanSize` of the header of a channel in the Go runtime (64-bit). -/
def hchanSize : Int := 96

/-- The size of an element of the queue, a pointer `*busPromise` (64-bit). -/
def promisePtrSize : Int := 8

/-- The built-in `make(chan *busPromise, size)`, as `makechan` of the Go runtime
decides it: it panics with `makechan: size out of range` when the size is
negative or when the buffer, `size` elements of pointer size, is larger than
`maxAlloc - hchanSize`. -/
def makeChan (size : Int) : Option Chan :=
  if size < 0 ∨ maxAlloc - hchanSize < promisePtrSize * size then none
  else some { cap := size.toNat }

/-- Modelled from the spec: the struct `socketContext`, with the fields that the
composite literal in `Dial` sets and the state set by `setState` (its
declaration is not in the source files at hand). -/
structure socketContext where
  e : Endpoint
  resolvedDest : String
  ctxId : String
  ctxQueue : Chan
  ctxQuit : Chan
  netQuit : Chan
  inBucket : Option leakyBucket
  outBucket : Option leakyBucket
  strategy : ThrottlingStrategy
  state : Option ContextState
  deriving DecidableEq

/-- Modelled from the spec: `setState`, which is not in the source files at hand. -/
def socketContext.setState (c : socketContext) (st : ContextState) : socketContext :=
  { c with state := some st }

/-- The method `Endpoint()` of a context, as `StopServing` uses it. -/
def socketContext.Endpoint (c : socketContext) : Endpoint := c.e

/-! ## Go maps -/

/-- A Go `map[string]*T` whose values are not nil, in iteration order. -/
abbrev GoMap (α : Type) := List (String × α)

/-- The value of `m[k]`: `none` stands for the nil pointer of a missing key. -/
def GoMap.get {α : Type} : GoMap α → String → Option α
  | [], _ => none
  | (k', v) :: rest, k => if k' = k then some v else GoMap.get rest k

/-- The assignment `m[k] = v`. -/
def GoMap.set {α : Type} : GoMap α → String → α → GoMap α
  | [], k, v => [(k, v)]
  | (k', v') :: rest, k, v =>
    if k' = k then (k, v) :: rest else (k', v') :: GoMap.set rest k v

/-- The values of a map in iteration order. -/
def GoMap.values {α : Type} (m : GoMap α) : List α := m.map Prod.snd

/-! ## State and effects -/

/-- A call that leaves the package. -/
inductive Effect where
  | dial (transport address : String) (ctx : socketContext)
  | ctxClose (c : socketContext)
  | listenerSignal (l : listenerShutdown)
  | listenerClose (l : listenerShutdown)
  | callback (r : Nat) (e : Endpoint) (err : Option GoError)
  deriving DecidableEq

/-- The package-level variables of `bus.go`, and the trace of effects so far. -/
structure BusState where
  contexts : GoMap socketContext
  servedContexts : GoMap socketContext
  endpointListeners : GoMap listenerShutdown
  trace : List Effect
  deriving DecidableEq

/-- Append effects to the trace. -/
def BusState.emit (s : BusState) (ev : List Effect) : BusState :=
  { s with trace := s.trace ++ ev }

/-- The collaborators outside the package: `net.LookupHost`, which returns the
addresses and an error, and the transport `dial(transport, address, ctx)`. -/
structure Net where
  LookupHost : String → List String × Option GoError
  dial : String → String → socketContext → Option GoError

/-! ## `endpoints.go` -/

/-- The panic of `addrs[0]` on a lookup result without addresses. -/
def indexFault : String := "runtime error: index out of range [0] with length 0"

/-- The panic of using the fields of a nil `*listenerShutdown`. -/
def nilFault : String :=
  "runtime error: invalid memory address or nil pointer dereference"

/-- The decimal text of `strconv.Itoa`. -/
def strconv.Itoa (i : Int) : String :=
  match i with
  | Int.ofNat n => Nat.repr n
  | Int.negSucc n => "-" ++ Nat.repr (n + 1)

/-- The function `resolveAddress` of `endpoints.go`. -/
def resolveAddress (net : Net) (e : Endpoint) : Outcome (String × Option GoError) :=
  if (e.FQDN = "" ∧ e.Address = "") ∨ e.Port = 0 ∨ e.Transport = "" then
    .ret ("", some BusError_DestInfoMissing)
  else
    let port := strconv.Itoa e.Port
    if e.FQDN ≠ "" then
      match net.LookupHost e.FQDN with
      | (addrs, err) =>
        if err ≠ none ∧ e.Address = "" then .ret ("", err)
        else if addrs.length = 0 ∧ e.Address = "" then
          .ret ("", some BusError_DestInfoMissing)
        else
          match addrs with
          | [] => .fault indexFault
          | a :: _ => .ret (a ++ ":" ++ port, none)
    else
      .ret (e.Address ++ ":" ++ port, none)

/-- The value of `cKey` in `evalAddressAndKey`. -/
def contextKey (e : Endpoint) (address : String) : String :=
  e.Id ++ "-" ++ address ++ "-" ++ e.Transport

/-- The function `evalAddressAndKey` of `endpoints.go`. -/
def evalAddressAndKey (net : Net) (s : BusState) (e : Endpoint) :
    Outcome (String × String × Option GoError) :=
  match resolveAddress net e with
  | .fault msg => .fault msg
  | .ret (address, err) =>
    if err ≠ none then .ret ("", "", err)
    else
      let cKey := contextKey e address
      if s.contexts.get cKey ≠ none then
        .ret ("", "", some BusError_EndpointAlreadyRegistered)
      else if e.Prototype = none then
        .ret ("", "", some BusError_MissingPrototypeInstance)
      else if e.MessageHandler = none then
        .ret ("", "", some BusError_MissingMessageHandler)
      else .ret (address, cKey, none)

/-! ## `bus.go` -/

/-- The function `createBuckets` of `bus.go`, with `none` for a nil criteria. -/
def createBuckets (t : Option ThrottlingCriteria) : Option leakyBucket × Option leakyBucket :=
  match t with
  | none => (none, none)
  | some t =>
    (some (newLeakyBucket t.IncomingLimitPerSecond t.IncomingLimitPerSecond),
     some (newLeakyBucket t.OutgoingLimitPerSecond t.OutgoingLimitPerSecond))

/-- The context built by the composite literal in `Dial`, after `setState(Opening)`.
The field `ThrottlingCriteria` of an endpoint is a struct, so the criteria handed
to `createBuckets` is never nil. -/
def newContext (e : Endpoint) (destAddress cKey : String) (queue : Chan) : socketContext :=
  let buckets := createBuckets (some e.ThrottlingCriteria)
  socketContext.setState
    { e := e
      resolvedDest := destAddress
      ctxId := cKey
      ctxQueue := queue
      ctxQuit := { cap := 0 }
      netQuit := { cap := 0 }
      inBucket := buckets.1
      outBucket := buckets.2
      strategy := e.ThrottlingCriteria.Strategy
      state := none }
    ContextState.Opening

/-- The function `Dial` of `bus.go`. The result tuple is `(Context, error)`. -/
def Dial (net : Net) (s : BusState) (e : Endpoint) :
    BusState × Outcome (Option socketContext × Option GoError) :=
  match evalAddressAndKey net s e with
  | .fault msg => (s, .fault msg)
  | .ret (destAddress, cKey, err) =>
    if err ≠ none then (s, .ret (none, err))
    else
      match makeChan e.BufferSize with
      | none => (s, .fault "makechan: size out of range")
      | some queue =>
        let ctx := newContext e destAddress cKey queue
        let s1 := s.emit [Effect.dial e.Transport destAddress ctx]
        match net.dial e.Transport destAddress ctx with
        | some err1 => (s1, .ret (none, some err1))
        | none => ({ s1 with contexts := s1.contexts.set cKey ctx }, .ret (some ctx, none))

/-- The error that `StopServing` hands to the callback for an endpoint without a
listener. -/
def stopServingError (e : Endpoint) : GoError :=
  .dynamic ("Endpoint already stopped or never served with id: " ++ e.Id)

/-- The two statements `l.q <- struct{}{}` and `l.l.Close()`. -/
def shutdownListener (l : listenerShutdown) : List Effect :=
  [Effect.listenerSignal l, Effect.listenerClose l]

/-- The function `StopServing` of `bus.go`; `r` is `none` for a nil `ResultFunc` and
`some f` for the callback with handle `f`. Using the fields of a nil `l` panics. -/
def StopServing (r : Option Nat) : List Endpoint → BusState → BusState × Outcome Unit
  | [], s => (s, .ret ())
  | e :: rest, s =>
    let l := s.endpointListeners.get e.Id
    let s1 :=
      match l, r with
      | none, some f => s.emit [Effect.callback f e (some (stopServingError e))]
      | _, _ => s
    let s2 := s1.emit
      ((s1.servedContexts.values.filter (fun c => c.Endpoint.Id = e.Id)).map Effect.ctxClose)
    match l with
    | none => (s2, .fault nilFault)
    | some ls => StopServing r rest (s2.emit (shutdownListener ls))

/-- The function `StopServingAll` of `bus.go`. -/
def StopServingAll (s : BusState) : BusState :=
  let s1 := s.emit (s.servedContexts.values.map Effect.ctxClose)
  s1.emit (s1.endpointListeners.values.flatMap shutdownListener)

/-- The function `Stop` of `bus.go` (it does not use `r`). -/
def Stop (_r : Option Nat) (s : BusState) : BusState :=
  StopServingAll (s.emit (s.contexts.values.map Effect.ctxClose))

/-- The effects that a run from `s` to `s1` has added to the trace. -/
def performed (s s1 : BusState) : List Effect := s1.trace.drop s.trace.length

/-- The effect is the `Close` of a context. -/
def Effect.isCtxClose : Effect → Bool
  | .ctxClose _ => true
  | _ => false

/-- The effect is the signal or the `Close` of a listener. -/
def Effect.isListenerEvent : Effect → Bool
  | .listenerSignal _ => true
  | .listenerClose _ => true
  | _ => false

/-! ## Two calls of `Dial` running at the same time

The steps of a call are the ones between which another goroutine can run: the
key check under the read lock (with the address resolution before it), the
transport dial, and the insertion under the write lock. -/

/-- Where a running call of `Dial` stands. -/
inductive DialPc where
  | start
  | checked (destAddress cKey : String)
  | dialed (cKey : String) (ctx : socketContext)
  | returned (r : Outcome (Option socketContext × Option GoError))
  deriving DecidableEq

/-- A running call of `Dial`. -/
structure DialCall where
  e : Endpoint
  pc : DialPc
  deriving DecidableEq

/-- One step of a running call of `Dial` on the shared state. -/
def dialStep (net : Net) (s : BusState) (t : DialCall) : BusState × DialCall :=
  match t.pc with
  | .start =>
    match evalAddressAndKey net s t.e with
    | .fault msg => (s, { t with pc := .returned (.fault msg) })
    | .ret (destAddress, cKey, err) =>
      if err ≠ none then (s, { t with pc := .returned (.ret (none, err)) })
      else (s, { t with pc := .checked destAddress cKey })
  | .checked destAddress cKey =>
    match makeChan t.e.BufferSize with
    | none => (s, { t with pc := .returned (.fault "makechan: size out of range") })
    | some queue =>
      let ctx := newContext t.e destAddress cKey queue
      let s1 := s.emit [Effect.dial t.e.Transport destAddress ctx]
      match net.dial t.e.Transport destAddress ctx with
      | some err1 => (s1, { t with pc := .returned (.ret (none, some err1)) })
      | none => (s1, { t with pc := .dialed cKey ctx })
  | .dialed cKey ctx =>
    ({ s with contexts := s.contexts.set cKey ctx },
     { t with pc := .returned (.ret (some ctx, none)) })
  | .returned _ => (s, t)

/-- Two calls of `Dial` and the state they share. -/
structure TwoDials where
  s : BusState
  a : DialCall
  b : DialCall
  deriving DecidableEq

/-- The scheduler lets the first call (`true`) or the second call (`false`) take
its next step. -/
def TwoDials.step (net : Net) (w : TwoDials) (first : Bool) : TwoDials :=
  if first then
    let r := dialStep net w.s w.a
    { w with s := r.1, a := r.2 }
  else
    let r := dialStep net w.s w.b
    { w with s := r.1, b := r.2 }

/-- Run two calls of `Dial` under a schedule. -/
def TwoDials.run (net : Net) (w : TwoDials) (schedule : List Bool) : TwoDials :=
  schedule.foldl (TwoDials.step net) w

/-- Both calls at their start. -/
def TwoDials.init (s : BusState) (e1 e2 : Endpoint) : TwoDials :=
  { s := s, a := { e := e1, pc := .start }, b := { e := e2, pc := .start } }

/-- The call has returned a context and a nil error. -/
def DialCall.succeeded (t : DialCall) : Bool :=
  match t.pc with
  | .returned (.ret (some _, none)) => true
  | _ => false

/-! ## Concrete inputs -/

/-- No context, no listener, no effect yet. -/
def emptyBus : BusState :=
  { contexts := [], servedContexts := [], endpointListeners := [], trace := [] }

/-- A complete endpoint with an address and no FQDN. -/
def sampleEndpoint : Endpoint :=
  { Id := "a", Address := "10.0.0.1", Port := 8080, FQDN := "", Transport := "tcp",
    BufferSize := 4, Origin := "", ResourceUrl := "", ShouldReconnect := false,
    MaxAttemptCount := 0, DelayDuration := 0, Prototype := some 1,
    ThrottlingCriteria :=
      { Strategy := BusTs_MPS, IncomingLimitPerSecond := 10, OutgoingLimitPerSecond := 10 },
    MessageHandler := some 2, ContextHandler := none }

/-- A network in which every lookup fails and every dial succeeds. -/
def netLookupFails : Net :=
  { LookupHost := fun _ => ([], some (.dynamic "no such host")),
    dial := fun _ _ _ => none }

/-- A network in which every lookup fails and every dial is refused. -/
def netUnreachable : Net :=
  { LookupHost := fun _ => ([], some (.dynamic "no such host")),
    dial := fun _ _ _ => some (.dynamic "connection refused") }

/-- The context that dialling `sampleEndpoint` makes. -/
def sampleContext : socketContext :=
  newContext sampleEndpoint "10.0.0.1:8080" "a-10.0.0.1:8080-tcp" { cap := 4 }

/-- The state after dialling `sampleEndpoint` from `emptyBus`. -/
def busAfterDial : BusState :=
  { contexts := [("a-10.0.0.1:8080-tcp", sampleContext)], servedContexts := [],
    endpointListeners := [],
    trace := [Effect.dial "tcp" "10.0.0.1:8080" sampleContext] }

/-- The endpoint `sampleEndpoint` without a port. -/
def endpointNoPort : Endpoint := { sampleEndpoint with Port := 0 }

/-- The endpoint `sampleEndpoint` with `BufferSize` zero. -/
def endpointUnbuffered : Endpoint := { sampleEndpoint with BufferSize := 0 }

/-- The endpoint `sampleEndpoint` with a `BufferSize` above the limit of `make`. -/
def endpointHugeBuffer : Endpoint := { sampleEndpoint with BufferSize := 4611686018427387904 }

/-- The endpoint `sampleEndpoint` with a negative `BufferSize`. -/
def endpointNegativeBuffer : Endpoint := { sampleEndpoint with BufferSize := -1 }

/-- The context that dialling `endpointUnbuffered` makes. -/
def contextUnbuffered : socketContext :=
  newContext endpointUnbuffered "10.0.0.1:8080" "a-10.0.0.1:8080-tcp" { cap := 0 }

/-- The state after dialling `endpointUnbuffered` from `emptyBus`. -/
def busAfterUnbufferedDial : BusState :=
  { contexts := [("a-10.0.0.1:8080-tcp", contextUnbuffered)], servedContexts := [],
    endpointListeners := [],
    trace := [Effect.dial "tcp" "10.0.0.1:8080" contextUnbuffered] }

/-- The state after a refused dial of `sampleEndpoint` from `emptyBus`. -/
def busAfterRefusedDial : BusState :=
  { contexts := [], servedContexts := [], endpointListeners := [],
    trace := [Effect.dial "tcp" "10.0.0.1:8080" sampleContext] }

/-- The endpoint `sampleEndpoint` with an FQDN next to its address. -/
def endpointWithFQDN : Endpoint := { sampleEndpoint with FQDN := "db.internal" }

/-- A served context of the endpoint with the given id. -/
def servedContext (id : String) : socketContext :=
  newContext { sampleEndpoint with Id := id } "10.0.0.9:4000" (id ++ "-10.0.0.9:4000-tcp")
    { cap := 4 }

/-- Two served endpoints, each with one connected context and a listener. -/
def busServingTwo : BusState :=
  { contexts := [],
    servedContexts := [("k1", servedContext "s1"), ("k2", servedContext "s2")],
    endpointListeners := [("s1", { l := 1, q := 11 }), ("s2", { l := 2, q := 12 })],
    trace := [] }

/-- The schedule in which both calls check the key, then both dial, then both
insert. -/
def scheduleCheckCheck : List Bool := [true, false, true, false, true, false]

/-- An endpoint whose Id holds the separator of the key. -/
def endpointDashId : Endpoint := { sampleEndpoint with Id := "a-b", Address := "c" }

/-- An endpoint whose Address holds the separator of the key. -/
def endpointDashAddress : Endpoint := { sampleEndpoint with Id := "a", Address := "b-c" }

/-- The number that a list of decimal digits stands for. -/
def decimalValue (cs : List Char) : Nat :=
  cs.foldl (fun acc c => 10 * acc + (c.toNat - 48)) 0

/-! # Theorems -/

/-! ## The map operations -/

theorem GoMap.get_set_self {α : Type} (m : GoMap α) (k : String) (v : α) :
    (m.set k v).get k = some v := by
  induction m with
  | nil => simp [GoMap.set, GoMap.get]
  | cons p rest ih =>
    obtain ⟨k1, v1⟩ := p
    by_cases h : k1 = k
    · simp [GoMap.set, GoMap.get, h]
    · simp [GoMap.set, GoMap.get, h, ih]

theorem GoMap.get_set_other {α : Type} (m : GoMap α) (k k2 : String) (v : α) (h : k ≠ k2) :
    (m.set k v).get k2 = m.get k2 := by
  induction m with
  | nil => simp [GoMap.set, GoMap.get, h]
  | cons p rest ih =>
    obtain ⟨k1, v1⟩ := p
    by_cases h1 : k1 = k
    · subst h1
      simp [GoMap.set, GoMap.get, h]
    · by_cases h2 : k1 = k2
      · subst h2
        simp [GoMap.set, GoMap.get, h1]
      · simp [GoMap.set, GoMap.get, h1, h2, ih]

/-! ## Validation of an endpoint without FQDN -/

/-- Without an FQDN, `resolveAddress` does not look anything up. -/
theorem resolveAddress_noFQDN (net : Net) (e : Endpoint) (hF : e.FQDN = "") :
    resolveAddress net e =
      if e.Address = "" ∨ e.Port = 0 ∨ e.Transport = "" then
        .ret ("", some BusError_DestInfoMissing)
      else .ret (e.Address ++ ":" ++ strconv.Itoa e.Port, none) := by
  simp [resolveAddress, hF]

/-- Without an FQDN, `evalAddressAndKey` is a chain of four checks. -/
theorem evalAddressAndKey_noFQDN (net : Net) (s : BusState) (e : Endpoint)
    (hF : e.FQDN = "") :
    evalAddressAndKey net s e =
      if e.Address = "" ∨ e.Port = 0 ∨ e.Transport = "" then
        .ret ("", "", some BusError_DestInfoMissing)
      else if s.contexts.get (contextKey e (e.Address ++ ":" ++ strconv.Itoa e.Port)) ≠ none then
        .ret ("", "", some BusError_EndpointAlreadyRegistered)
      else if e.Prototype = none then
        .ret ("", "", some BusError_MissingPrototypeInstance)
      else if e.MessageHandler = none then
        .ret ("", "", some BusError_MissingMessageHandler)
      else
        .ret (e.Address ++ ":" ++ strconv.Itoa e.Port,
          contextKey e (e.Address ++ ":" ++ strconv.Itoa e.Port), none) := by
  unfold evalAddressAndKey
  rw [resolveAddress_noFQDN net e hF]
  by_cases h : e.Address = "" ∨ e.Port = 0 ∨ e.Transport = ""
  · simp [h, BusError_DestInfoMissing]
  · simp [h]

/-- The key as the identity key format writes it. -/
theorem contextKey_format (e : Endpoint) :
    contextKey e (e.Address ++ ":" ++ strconv.Itoa e.Port) =
      e.Id ++ "-" ++ e.Address ++ ":" ++ strconv.Itoa e.Port ++ "-" ++ e.Transport := by
  simp [contextKey, String.append_assoc]

/-- A call of `Dial` that returns an error leaves the state as it was, up to the
effect of a transport dial. -/
theorem Dial_error_inv (net : Net) (s s1 : BusState) (e : Endpoint)
    (c : Option socketContext) (err : GoError)
    (h : Dial net s e = (s1, .ret (c, some err))) :
    c = none ∧ s1.contexts = s.contexts ∧ s1.servedContexts = s.servedContexts ∧
      s1.endpointListeners = s.endpointListeners := by
  unfold Dial at h
  split at h
  · simp at h
  · rename_i destAddress cKey err0 _
    split at h
    · simp only [Prod.mk.injEq, Outcome.ret.injEq] at h
      obtain ⟨rfl, rfl, _⟩ := h
      simp
    · split at h
      · simp at h
      · dsimp only at h
        split at h
        · simp only [Prod.mk.injEq, Outcome.ret.injEq] at h
          obtain ⟨rfl, rfl, _⟩ := h
          simp [BusState.emit]
        · simp at h

/-- What a successful call of `Dial` has done. -/
theorem Dial_success_inv (net : Net) (s s1 : BusState) (e : Endpoint) (ctx : socketContext)
    (h : Dial net s e = (s1, .ret (some ctx, none))) :
    ∃ destAddress cKey queue,
      evalAddressAndKey net s e = .ret (destAddress, cKey, none) ∧
      makeChan e.BufferSize = some queue ∧
      ctx = newContext e destAddress cKey queue ∧
      net.dial e.Transport destAddress ctx = none ∧
      s1 = { s.emit [Effect.dial e.Transport destAddress ctx] with
              contexts := s.contexts.set cKey ctx } := by
  unfold Dial at h
  split at h
  · simp at h
  · rename_i destAddress cKey err0 heval
    split at h
    · rename_i herr
      simp only [Prod.mk.injEq, Outcome.ret.injEq] at h
      obtain ⟨_, _, rfl⟩ := h
      simp at herr
    · rename_i herr
      have herr0 : err0 = none := by simpa using herr
      subst herr0
      split at h
      · simp at h
      · rename_i queue hq
        dsimp only at h
        split at h
        · simp at h
        · rename_i hdial
          simp only [Prod.mk.injEq, Outcome.ret.injEq, Option.some.injEq, and_true] at h
          obtain ⟨rfl, rfl⟩ := h
          exact ⟨destAddress, cKey, queue, heval, hq, rfl, hdial, rfl⟩

/-! ## Claims on `Dial` -/

/-- C1: for an endpoint with an empty FQDN, when `Dial` has succeeded and returned a
context, a following `Dial` of the same endpoint on the resulting state returns
`BusError_EndpointAlreadyRegistered` and no context, for every answer the
transport dial could give (any `net2`), and leaves the state and its trace as
they were: no transport dial is made. -/
theorem Dial_again_already_registered (net net2 : Net) (s s1 : BusState) (e : Endpoint)
    (ctx : socketContext) (hF : e.FQDN = "")
    (h : Dial net s e = (s1, .ret (some ctx, none))) :
    Dial net2 s1 e = (s1, .ret (none, some BusError_EndpointAlreadyRegistered)) := by
  obtain ⟨destAddress, cKey, queue, heval, _, _, _, hs1⟩ := Dial_success_inv net s s1 e ctx h
  rw [evalAddressAndKey_noFQDN net s e hF] at heval
  have hlive : s1.contexts.get (contextKey e (e.Address ++ ":" ++ strconv.Itoa e.Port)) ≠ none := by
    split at heval
    · simp at heval
    · split at heval
      · simp at heval
      · split at heval
        · simp at heval
        · split at heval
          · simp at heval
          · simp only [Outcome.ret.injEq, Prod.mk.injEq, and_true] at heval
            obtain ⟨_, rfl⟩ := heval
            rw [hs1]
            simp [GoMap.get_set_self]
  have hok : ¬(e.Address = "" ∨ e.Port = 0 ∨ e.Transport = "") := by
    intro hmiss
    simp [hmiss] at heval
  have heval2 : evalAddressAndKey net2 s1 e =
      .ret ("", "", some BusError_EndpointAlreadyRegistered) := by
    rw [evalAddressAndKey_noFQDN net2 s1 e hF]
    simp [hok, hlive]
  unfold Dial
  rw [heval2]
  simp

/-- The second dial of `sampleEndpoint`, on an unreachable network, is rejected. -/
theorem Dial_again_already_registered_witness :
    sampleEndpoint.FQDN = "" ∧
    Dial netLookupFails emptyBus sampleEndpoint = (busAfterDial, .ret (some sampleContext, none)) ∧
    Dial netUnreachable busAfterDial sampleEndpoint =
      (busAfterDial, .ret (none, some BusError_EndpointAlreadyRegistered)) :=
  ⟨rfl, by decide,
    Dial_again_already_registered netLookupFails netUnreachable emptyBus busAfterDial
      sampleEndpoint sampleContext rfl (by decide)⟩

/-- C2: when `Dial` returns an error (from validation, address resolution, key
collision or the transport dial), the map of live initiator contexts after the
call is the map before the call, and the context returned is nil. -/
theorem Dial_error_registers_nothing (net : Net) (s s1 : BusState) (e : Endpoint)
    (c : Option socketContext) (err : GoError)
    (h : Dial net s e = (s1, .ret (c, some err))) :
    s1.contexts = s.contexts ∧ c = none :=
  ⟨(Dial_error_inv net s s1 e c err h).2.1, (Dial_error_inv net s s1 e c err h).1⟩

/-- A refused dial of `sampleEndpoint` from the empty state registers nothing. -/
theorem Dial_error_registers_nothing_witness :
    Dial netUnreachable emptyBus sampleEndpoint =
      (busAfterRefusedDial, .ret (none, some (.dynamic "connection refused"))) ∧
    busAfterRefusedDial.contexts = emptyBus.contexts ∧ (none : Option socketContext) = none :=
  ⟨by decide,
    Dial_error_registers_nothing netUnreachable emptyBus busAfterRefusedDial sampleEndpoint
      none (.dynamic "connection refused") (by decide)⟩

/-- C3: for an endpoint with empty FQDN, non-empty Address, non-zero Port, non-empty
Transport, non-nil Prototype and non-nil MessageHandler, on a state in which the
computed key is not live, `evalAddressAndKey` returns a nil error, the destination
`Address + ":" + Itoa(Port)` and the key
`Id + "-" + Address + ":" + Itoa(Port) + "-" + Transport`; when `Dial` then
succeeds, the returned context is the value of the map of live contexts at that
key (and it carries that key and destination); and `Dial` does succeed when
`make` accepts `BufferSize` as the size of the queue (it is not negative and not
above the limit of the runtime) and the transport dial of the new context
returns nil. -/
theorem evalAddressAndKey_key_format (net : Net) (s : BusState) (e : Endpoint)
    (hF : e.FQDN = "") (hA : e.Address ≠ "") (hP : e.Port ≠ 0) (hT : e.Transport ≠ "")
    (hProto : e.Prototype ≠ none) (hMH : e.MessageHandler ≠ none)
    (hfree : s.contexts.get
      (e.Id ++ "-" ++ e.Address ++ ":" ++ strconv.Itoa e.Port ++ "-" ++ e.Transport) = none) :
    evalAddressAndKey net s e =
        .ret (e.Address ++ ":" ++ strconv.Itoa e.Port,
          e.Id ++ "-" ++ e.Address ++ ":" ++ strconv.Itoa e.Port ++ "-" ++ e.Transport, none) ∧
      (∀ s1 ctx, Dial net s e = (s1, .ret (some ctx, none)) →
        s1.contexts.get
            (e.Id ++ "-" ++ e.Address ++ ":" ++ strconv.Itoa e.Port ++ "-" ++ e.Transport) =
          some ctx ∧
        ctx.ctxId =
          e.Id ++ "-" ++ e.Address ++ ":" ++ strconv.Itoa e.Port ++ "-" ++ e.Transport ∧
        ctx.resolvedDest = e.Address ++ ":" ++ strconv.Itoa e.Port) ∧
      (∀ queue, makeChan e.BufferSize = some queue →
        net.dial e.Transport (e.Address ++ ":" ++ strconv.Itoa e.Port)
          (newContext e (e.Address ++ ":" ++ strconv.Itoa e.Port)
            (e.Id ++ "-" ++ e.Address ++ ":" ++ strconv.Itoa e.Port ++ "-" ++ e.Transport)
            queue) = none →
        ∃ s1 ctx, Dial net s e = (s1, .ret (some ctx, none))) := by
  have heval : evalAddressAndKey net s e =
      .ret (e.Address ++ ":" ++ strconv.Itoa e.Port,
        e.Id ++ "-" ++ e.Address ++ ":" ++ strconv.Itoa e.Port ++ "-" ++ e.Transport, none) := by
    rw [evalAddressAndKey_noFQDN net s e hF, contextKey_format]
    simp [hA, hP, hT, hProto, hMH, hfree]
  refine ⟨heval, ?_, ?_⟩
  · intro s1 ctx h
    obtain ⟨destAddress, cKey, queue, heval1, _, hctx, _, hs1⟩ :=
      Dial_success_inv net s s1 e ctx h
    rw [heval] at heval1
    simp only [Outcome.ret.injEq, Prod.mk.injEq, and_true] at heval1
    obtain ⟨rfl, rfl⟩ := heval1
    refine ⟨?_, ?_, ?_⟩
    · rw [hs1]
      simp [GoMap.get_set_self]
    · rw [hctx]
      rfl
    · rw [hctx]
      rfl
  · intro queue hq hdial
    unfold Dial
    rw [heval]
    simp [hq, hdial]

/-- The destination and the key of `sampleEndpoint`, and where its context is stored. -/
theorem evalAddressAndKey_key_format_witness :
    evalAddressAndKey netLookupFails emptyBus sampleEndpoint =
        .ret ("10.0.0.1:8080", "a-10.0.0.1:8080-tcp", none) ∧
      (Dial netLookupFails emptyBus sampleEndpoint =
          (busAfterDial, .ret (some sampleContext, none)) ∧
        busAfterDial.contexts.get "a-10.0.0.1:8080-tcp" = some sampleContext) :=
  have h := evalAddressAndKey_key_format netLookupFails emptyBus sampleEndpoint rfl
    (by decide) (by decide) (by decide) (by decide) (by decide) (by decide)
  ⟨h.1, by decide, (h.2.1 busAfterDial sampleContext (by decide)).1⟩

/-- C4: for an endpoint with an empty FQDN, `evalAddressAndKey` returns
`BusError_DestInfoMissing` when Address is empty or Port is 0 or Transport is
empty; otherwise `BusError_EndpointAlreadyRegistered` when the computed key is
live; otherwise `BusError_MissingPrototypeInstance` when Prototype is nil;
otherwise `BusError_MissingMessageHandler` when MessageHandler is nil; it returns
an error exactly when one of these holds; and whenever it returns an error, `Dial`
returns that error with a nil context on an unchanged state, trace included, so
that no transport dial is made. -/
theorem evalAddressAndKey_errors (net : Net) (s : BusState) (e : Endpoint)
    (hF : e.FQDN = "") :
    ((e.Address = "" ∨ e.Port = 0 ∨ e.Transport = "") →
      evalAddressAndKey net s e = .ret ("", "", some BusError_DestInfoMissing)) ∧
    (¬(e.Address = "" ∨ e.Port = 0 ∨ e.Transport = "") →
      s.contexts.get
        (e.Id ++ "-" ++ e.Address ++ ":" ++ strconv.Itoa e.Port ++ "-" ++ e.Transport) ≠ none →
      evalAddressAndKey net s e = .ret ("", "", some BusError_EndpointAlreadyRegistered)) ∧
    (¬(e.Address = "" ∨ e.Port = 0 ∨ e.Transport = "") →
      s.contexts.get
        (e.Id ++ "-" ++ e.Address ++ ":" ++ strconv.Itoa e.Port ++ "-" ++ e.Transport) = none →
      e.Prototype = none →
      evalAddressAndKey net s e = .ret ("", "", some BusError_MissingPrototypeInstance)) ∧
    (¬(e.Address = "" ∨ e.Port = 0 ∨ e.Transport = "") →
      s.contexts.get
        (e.Id ++ "-" ++ e.Address ++ ":" ++ strconv.Itoa e.Port ++ "-" ++ e.Transport) = none →
      e.Prototype ≠ none → e.MessageHandler = none →
      evalAddressAndKey net s e = .ret ("", "", some BusError_MissingMessageHandler)) ∧
    ((∃ a k err, evalAddressAndKey net s e = .ret (a, k, some err)) ↔
      (e.Address = "" ∨ e.Port = 0 ∨ e.Transport = "") ∨
      s.contexts.get
        (e.Id ++ "-" ++ e.Address ++ ":" ++ strconv.Itoa e.Port ++ "-" ++ e.Transport) ≠ none ∨
      e.Prototype = none ∨ e.MessageHandler = none) ∧
    (∀ a k err, evalAddressAndKey net s e = .ret (a, k, some err) →
      Dial net s e = (s, .ret (none, some err)) ∧ performed s (Dial net s e).1 = []) := by
  have hform := evalAddressAndKey_noFQDN net s e hF
  rw [contextKey_format] at hform
  refine ⟨?_, ?_, ?_, ?_, ?_, ?_⟩
  · intro hmiss
    rw [hform]
    simp [hmiss]
  · intro hok hlive
    rw [hform]
    simp [hok, hlive]
  · intro hok hfree hproto
    rw [hform]
    simp [hok, hfree, hproto]
  · intro hok hfree hproto hmh
    rw [hform]
    simp [hok, hfree, hproto, hmh]
  · rw [hform]
    by_cases hmiss : e.Address = "" ∨ e.Port = 0 ∨ e.Transport = ""
    · simp [hmiss]
    · by_cases hlive : s.contexts.get
          (e.Id ++ "-" ++ e.Address ++ ":" ++ strconv.Itoa e.Port ++ "-" ++ e.Transport) = none
      · by_cases hproto : e.Prototype = none
        · simp [hmiss, hlive, hproto]
        · by_cases hmh : e.MessageHandler = none
          · simp [hmiss, hlive, hproto, hmh]
          · simp [hmiss, hlive, hproto, hmh]
      · simp [hmiss, hlive]
  · intro a k err h
    have hD : Dial net s e = (s, .ret (none, some err)) := by
      unfold Dial
      rw [h]
      simp
    refine ⟨hD, ?_⟩
    rw [hD]
    simp [performed]

/-- An endpoint without a port is refused before any dial. -/
theorem evalAddressAndKey_errors_witness :
    endpointNoPort.FQDN = "" ∧
    evalAddressAndKey netLookupFails emptyBus endpointNoPort =
      .ret ("", "", some BusError_DestInfoMissing) ∧
    Dial netLookupFails emptyBus endpointNoPort =
      (emptyBus, .ret (none, some BusError_DestInfoMissing)) :=
  have h := evalAddressAndKey_errors netLookupFails emptyBus endpointNoPort rfl
  ⟨rfl, h.1 (by decide), (h.2.2.2.2.2 "" "" BusError_DestInfoMissing (h.1 (by decide))).1⟩

/-- C8, against the claim: dialling an endpoint with `BufferSize` zero succeeds and
the queue of the returned context has capacity zero, which is not a positive
default. -/
theorem Dial_BufferSize_zero_capacity_zero :
    Dial netLookupFails emptyBus endpointUnbuffered =
        (busAfterUnbufferedDial, .ret (some contextUnbuffered, none)) ∧
      endpointUnbuffered.BufferSize = 0 ∧ ¬(1 ≤ contextUnbuffered.ctxQueue.cap) := by
  decide

/-- C8, amended: whenever `Dial` succeeds, the queue of the returned context has
capacity `BufferSize`, for every value of `BufferSize`, zero included: zero gives
a queue of capacity zero (an unbuffered channel) and no default is put in its
place. -/
theorem Dial_queue_capacity (net : Net) (s s1 : BusState) (e : Endpoint)
    (ctx : socketContext) (h : Dial net s e = (s1, .ret (some ctx, none))) :
    (ctx.ctxQueue.cap : Int) = e.BufferSize := by
  obtain ⟨destAddress, cKey, queue, _, hq, hctx, _, _⟩ := Dial_success_inv net s s1 e ctx h
  have hcap : ctx.ctxQueue = queue := by
    rw [hctx]
    rfl
  rw [hcap]
  unfold makeChan at hq
  split at hq
  · simp at hq
  · rename_i hneg
    simp only [Option.some.injEq] at hq
    rw [← hq]
    simp only
    omega

/-- The queue of the context of `sampleEndpoint` has capacity four. -/
theorem Dial_queue_capacity_witness :
    Dial netLookupFails emptyBus sampleEndpoint =
        (busAfterDial, .ret (some sampleContext, none)) ∧
      (sampleContext.ctxQueue.cap : Int) = sampleEndpoint.BufferSize :=
  ⟨by decide,
    Dial_queue_capacity netLookupFails emptyBus busAfterDial sampleEndpoint sampleContext
      (by decide)⟩

/-- A `BufferSize` that `make` refuses, negative or above the limit of the runtime,
makes `Dial` panic after the validation, before any dial and with nothing
registered. -/
theorem Dial_BufferSize_out_of_range :
    makeChan endpointHugeBuffer.BufferSize = none ∧
      Dial netLookupFails emptyBus endpointHugeBuffer =
        (emptyBus, .fault "makechan: size out of range") ∧
      makeChan endpointNegativeBuffer.BufferSize = none ∧
      Dial netLookupFails emptyBus endpointNegativeBuffer =
        (emptyBus, .fault "makechan: size out of range") := by
  decide

/-! ## Resolution of an FQDN -/

/-- When the lookup of the FQDN fails and the endpoint has no Address,
`resolveAddress` returns the error of the lookup, and `Dial` returns it with a nil
context on an unchanged state. -/
theorem resolveAddress_lookup_error_no_address (net : Net) (s : BusState) (e : Endpoint)
    (err : GoError) (hF : e.FQDN ≠ "") (hA : e.Address = "") (hP : e.Port ≠ 0)
    (hT : e.Transport ≠ "") (hlook : net.LookupHost e.FQDN = ([], some err)) :
    resolveAddress net e = .ret ("", some err) ∧
      Dial net s e = (s, .ret (none, some err)) := by
  have hres : resolveAddress net e = .ret ("", some err) := by
    simp [resolveAddress, hF, hA, hP, hT, hlook]
  refine ⟨hres, ?_⟩
  simp [Dial, evalAddressAndKey, hres]

/-- When the lookup of the FQDN yields no address and the endpoint has an Address,
`resolveAddress` panics on `addrs[0]`, and so does `Dial`. -/
theorem resolveAddress_lookup_error_with_address (net : Net) (s : BusState) (e : Endpoint)
    (err : Option GoError) (hF : e.FQDN ≠ "") (hA : e.Address ≠ "") (hP : e.Port ≠ 0)
    (hT : e.Transport ≠ "") (hlook : net.LookupHost e.FQDN = ([], err)) :
    resolveAddress net e = .fault indexFault ∧ Dial net s e = (s, .fault indexFault) := by
  have hres : resolveAddress net e = .fault indexFault := by
    simp [resolveAddress, hF, hA, hP, hT, hlook]
  refine ⟨hres, ?_⟩
  simp [Dial, evalAddressAndKey, hres]

/-- C5, the code at the failing input: with an FQDN whose lookup fails and a
non-empty Address, `resolveAddress` does not return an error, it panics on
`addrs[0]`, and `Dial` panics with it (no dial is made, nothing is registered). -/
theorem resolveAddress_lookup_failure_panics :
    endpointWithFQDN.FQDN ≠ "" ∧ endpointWithFQDN.Address ≠ "" ∧
      netLookupFails.LookupHost endpointWithFQDN.FQDN = ([], some (.dynamic "no such host")) ∧
      resolveAddress netLookupFails endpointWithFQDN = .fault indexFault ∧
      Dial netLookupFails emptyBus endpointWithFQDN = (emptyBus, .fault indexFault) := by
  decide

/-! ## Stopping -/

/-- For an endpoint without a listener, `StopServing` panics, after the callback
(when there is one) and after closing the contexts of the endpoint. -/
theorem StopServing_without_listener (r : Option Nat) (e : Endpoint) (rest : List Endpoint)
    (s : BusState) (h : s.endpointListeners.get e.Id = none) :
    (StopServing r (e :: rest) s).2 = .fault nilFault := by
  simp [StopServing, h]

/-- C6, the code at the failing input: stopping an endpoint that was never served
calls a callback once with the endpoint and an error and then panics on the nil
listener; without a callback it panics as well. -/
theorem StopServing_never_served_panics :
    emptyBus.endpointListeners.get sampleEndpoint.Id = none ∧
      StopServing (some 7) [sampleEndpoint] emptyBus =
        (emptyBus.emit [Effect.callback 7 sampleEndpoint (some (stopServingError sampleEndpoint))],
          .fault nilFault) ∧
      StopServing none [sampleEndpoint] emptyBus = (emptyBus, .fault nilFault) := by
  decide

theorem count_ctxClose_closes (cs : List socketContext) (c : socketContext) :
    (cs.map Effect.ctxClose).count (Effect.ctxClose c) = cs.count c := by
  induction cs with
  | nil => rfl
  | cons d rest ih =>
    by_cases h : d = c
    · simp [List.count_cons, ih, h]
    · simp [List.count_cons, ih, h]

theorem count_ctxClose_shutdown (ls : List listenerShutdown) (c : socketContext) :
    (ls.flatMap shutdownListener).count (Effect.ctxClose c) = 0 := by
  induction ls with
  | nil => rfl
  | cons d rest ih =>
    simp only [List.flatMap_cons, List.count_append, ih]
    simp [shutdownListener, List.count_cons]

theorem count_signal_closes (cs : List socketContext) (l : listenerShutdown) :
    (cs.map Effect.ctxClose).count (Effect.listenerSignal l) = 0 ∧
      (cs.map Effect.ctxClose).count (Effect.listenerClose l) = 0 := by
  induction cs with
  | nil => exact ⟨rfl, rfl⟩
  | cons d rest ih => simp [List.count_cons, ih.1, ih.2]

theorem count_signal_shutdown (ls : List listenerShutdown) (l : listenerShutdown) :
    (ls.flatMap shutdownListener).count (Effect.listenerSignal l) = ls.count l ∧
      (ls.flatMap shutdownListener).count (Effect.listenerClose l) = ls.count l := by
  induction ls with
  | nil => exact ⟨rfl, rfl⟩
  | cons d rest ih =>
    simp only [List.flatMap_cons, List.count_append, ih.1, ih.2]
    by_cases h : d = l
    · simp [shutdownListener, List.count_cons, h, Nat.add_comm]
    · simp [shutdownListener, List.count_cons, h]

theorem all_isCtxClose_closes (cs : List socketContext) :
    (cs.map Effect.ctxClose).all Effect.isCtxClose = true := by
  induction cs with
  | nil => rfl
  | cons d rest ih => simp [Effect.isCtxClose, ih]

theorem all_isListenerEvent_shutdown (ls : List listenerShutdown) :
    (ls.flatMap shutdownListener).all Effect.isListenerEvent = true := by
  induction ls with
  | nil => rfl
  | cons d rest ih =>
    simp only [List.flatMap_cons, List.all_append, ih, Bool.and_true]
    simp [shutdownListener, Effect.isListenerEvent]

theorem performed_StopServingAll (s : BusState) :
    performed s (StopServingAll s) =
      s.servedContexts.values.map Effect.ctxClose ++
        s.endpointListeners.values.flatMap shutdownListener := by
  simp [performed, StopServingAll, BusState.emit, List.append_assoc]

theorem performed_Stop (r : Option Nat) (s : BusState) :
    performed s (Stop r s) =
      s.contexts.values.map Effect.ctxClose ++
        (s.servedContexts.values.map Effect.ctxClose ++
          s.endpointListeners.values.flatMap shutdownListener) := by
  simp [performed, Stop, StopServingAll, BusState.emit, List.append_assoc]

theorem count_ctxClose_StopServingAll (s : BusState) (c : socketContext) :
    (performed s (StopServingAll s)).count (Effect.ctxClose c) =
      s.servedContexts.values.count c := by
  rw [performed_StopServingAll, List.count_append, count_ctxClose_closes,
    count_ctxClose_shutdown, Nat.add_zero]

theorem count_listener_StopServingAll (s : BusState) (l : listenerShutdown) :
    (performed s (StopServingAll s)).count (Effect.listenerSignal l) =
        s.endpointListeners.values.count l ∧
      (performed s (StopServingAll s)).count (Effect.listenerClose l) =
        s.endpointListeners.values.count l := by
  rw [performed_StopServingAll, List.count_append, List.count_append,
    (count_signal_closes _ l).1, (count_signal_closes _ l).2,
    (count_signal_shutdown _ l).1, (count_signal_shutdown _ l).2]
  simp

/-- C7: the effects of `StopServingAll` are one `Close` for each entry of the map
of served contexts, in the order of iteration, followed by the signal and the
`Close` of each entry of the map of listeners. So all closes of contexts stand
before all events of listeners; each served context is closed as many times as
the map holds it, which is once when the contexts of the map are pairwise
different; and the same for the signal and the `Close` of each listener. The
effects of `Stop` are one `Close` for each entry of the map of initiator contexts
followed by the effects of `StopServingAll`. This holds for every state, so for
every number of entries and every order of iteration. -/
theorem StopServingAll_closes_contexts_then_listeners (r : Option Nat) (s : BusState) :
    performed s (StopServingAll s) =
        s.servedContexts.values.map Effect.ctxClose ++
          s.endpointListeners.values.flatMap shutdownListener ∧
      ((performed s (StopServingAll s)).take s.servedContexts.length).all
          Effect.isCtxClose = true ∧
      ((performed s (StopServingAll s)).drop s.servedContexts.length).all
          Effect.isListenerEvent = true ∧
      (∀ c, (performed s (StopServingAll s)).count (Effect.ctxClose c) =
        s.servedContexts.values.count c) ∧
      (∀ l, (performed s (StopServingAll s)).count (Effect.listenerSignal l) =
          s.endpointListeners.values.count l ∧
        (performed s (StopServingAll s)).count (Effect.listenerClose l) =
          s.endpointListeners.values.count l) ∧
      (s.servedContexts.values.Nodup → ∀ c ∈ s.servedContexts.values,
        (performed s (StopServingAll s)).count (Effect.ctxClose c) = 1) ∧
      (s.endpointListeners.values.Nodup → ∀ l ∈ s.endpointListeners.values,
        (performed s (StopServingAll s)).count (Effect.listenerSignal l) = 1 ∧
        (performed s (StopServingAll s)).count (Effect.listenerClose l) = 1) ∧
      performed s (Stop r s) =
        s.contexts.values.map Effect.ctxClose ++ performed s (StopServingAll s) ∧
      (∀ c, ((performed s (Stop r s)).take s.contexts.length).count (Effect.ctxClose c) =
        s.contexts.values.count c) ∧
      (s.contexts.values.Nodup → ∀ c ∈ s.contexts.values,
        ((performed s (Stop r s)).take s.contexts.length).count (Effect.ctxClose c) = 1) := by
  have hlen : (s.servedContexts.values.map Effect.ctxClose).length = s.servedContexts.length := by
    simp [GoMap.values]
  have hlen2 : (s.contexts.values.map Effect.ctxClose).length = s.contexts.length := by
    simp [GoMap.values]
  have hstop : ∀ c, ((performed s (Stop r s)).take s.contexts.length).count
      (Effect.ctxClose c) = s.contexts.values.count c := by
    intro c
    rw [performed_Stop, ← hlen2, List.take_left, count_ctxClose_closes]
  refine ⟨performed_StopServingAll s, ?_, ?_, count_ctxClose_StopServingAll s,
    count_listener_StopServingAll s, ?_, ?_, ?_, hstop, ?_⟩
  · rw [performed_StopServingAll, ← hlen, List.take_left]
    exact all_isCtxClose_closes _
  · rw [performed_StopServingAll, ← hlen, List.drop_left]
    exact all_isListenerEvent_shutdown _
  · intro hc c hmem
    rw [count_ctxClose_StopServingAll s c]
    exact List.count_eq_one_of_mem hc hmem
  · intro hl l hmem
    rw [(count_listener_StopServingAll s l).1, (count_listener_StopServingAll s l).2]
    exact ⟨List.count_eq_one_of_mem hl hmem, List.count_eq_one_of_mem hl hmem⟩
  · rw [performed_Stop, performed_StopServingAll]
  · intro hc c hmem
    rw [hstop c]
    exact List.count_eq_one_of_mem hc hmem

/-- The effects of stopping two served endpoints with one context each. -/
theorem StopServingAll_closes_contexts_then_listeners_witness :
    busServingTwo.servedContexts.values.Nodup ∧
      busServingTwo.endpointListeners.values.Nodup ∧
      performed busServingTwo (StopServingAll busServingTwo) =
        [Effect.ctxClose (servedContext "s1"), Effect.ctxClose (servedContext "s2"),
          Effect.listenerSignal { l := 1, q := 11 }, Effect.listenerClose { l := 1, q := 11 },
          Effect.listenerSignal { l := 2, q := 12 }, Effect.listenerClose { l := 2, q := 12 }] ∧
      (performed busServingTwo (StopServingAll busServingTwo)).count
        (Effect.ctxClose (servedContext "s2")) = 1 ∧
      (performed busServingTwo (StopServingAll busServingTwo)).count
        (Effect.listenerClose { l := 1, q := 11 }) = 1 :=
  have h := StopServingAll_closes_contexts_then_listeners none busServingTwo
  ⟨by decide, by decide, h.1.trans (by decide),
    h.2.2.2.2.2.1 (by decide) (servedContext "s2") (by decide),
    (h.2.2.2.2.2.2.1 (by decide) { l := 1, q := 11 } (by decide)).2⟩

/-! ## Two calls of `Dial` at the same time -/

/-- A call of `Dial` that runs its three steps alone does what `Dial` does. -/
theorem dialStep_alone (net : Net) (s : BusState) (e : Endpoint) :
    (dialStep net (dialStep net (dialStep net s { e := e, pc := .start }).1
        (dialStep net s { e := e, pc := .start }).2).1
      (dialStep net (dialStep net s { e := e, pc := .start }).1
        (dialStep net s { e := e, pc := .start }).2).2) =
      ((Dial net s e).1, { e := e, pc := .returned (Dial net s e).2 }) := by
  unfold Dial
  cases heval : evalAddressAndKey net s e with
  | fault msg => simp [dialStep, heval]
  | ret p =>
    obtain ⟨destAddress, cKey, err⟩ := p
    cases err with
    | some err0 => simp [dialStep, heval]
    | none =>
      cases hq : makeChan e.BufferSize with
      | none => simp [dialStep, heval, hq]
      | some queue =>
        cases hd : net.dial e.Transport destAddress (newContext e destAddress cKey queue) with
        | some err1 => simp [dialStep, heval, hq, hd]
        | none => simp [dialStep, heval, hq, hd, BusState.emit]

/-- C9, the code at the failing input: two calls of `Dial` with the same endpoint,
from the empty state, scheduled so that both check the key before either inserts:
both return a context and a nil error, neither returns
`BusError_EndpointAlreadyRegistered`, and the map holds one entry. -/
theorem concurrent_Dial_both_succeed :
    ((TwoDials.init emptyBus sampleEndpoint sampleEndpoint).run netLookupFails
        scheduleCheckCheck).a.pc = .returned (.ret (some sampleContext, none)) ∧
      ((TwoDials.init emptyBus sampleEndpoint sampleEndpoint).run netLookupFails
        scheduleCheckCheck).b.pc = .returned (.ret (some sampleContext, none)) ∧
      ((TwoDials.init emptyBus sampleEndpoint sampleEndpoint).run netLookupFails
        scheduleCheckCheck).s.contexts = [("a-10.0.0.1:8080-tcp", sampleContext)] := by
  decide

/-- Whenever a call of `Dial` running alone would succeed, two calls with that
endpoint that both check the key before either inserts both succeed. -/
theorem concurrent_Dial_race (net : Net) (s s1 : BusState) (e : Endpoint)
    (ctx : socketContext) (h : Dial net s e = (s1, .ret (some ctx, none))) :
    ((TwoDials.init s e e).run net scheduleCheckCheck).a.pc =
        .returned (.ret (some ctx, none)) ∧
      ((TwoDials.init s e e).run net scheduleCheckCheck).b.pc =
        .returned (.ret (some ctx, none)) := by
  obtain ⟨destAddress, cKey, queue, heval, hq, hctx, hdial, _⟩ :=
    Dial_success_inv net s s1 e ctx h
  subst hctx
  simp [TwoDials.run, TwoDials.init, TwoDials.step, scheduleCheckCheck, dialStep, heval, hq,
    hdial]

/-- When the first call runs to its end before the second starts, the first
succeeds and the second returns `BusError_EndpointAlreadyRegistered`. -/
theorem sequential_Dial_one_succeeds :
    ((TwoDials.init emptyBus sampleEndpoint sampleEndpoint).run netLookupFails
        [true, true, true, false, false, false]).a.pc =
        .returned (.ret (some sampleContext, none)) ∧
      ((TwoDials.init emptyBus sampleEndpoint sampleEndpoint).run netLookupFails
        [true, true, true, false, false, false]).b.pc =
        .returned (.ret (none, some BusError_EndpointAlreadyRegistered)) := by
  decide

/-! ## The identity key -/

theorem digitChar_props (k : Nat) (h : k < 10) :
    (Nat.digitChar k).toNat - 48 = k ∧ Nat.digitChar k ≠ ':' ∧ Nat.digitChar k ≠ '-' := by
  interval_cases k <;> decide

/-- The text of `strconv.Itoa` on a port, on zero and on a negative number. -/
theorem Itoa_samples :
    strconv.Itoa 8080 = "8080" ∧ strconv.Itoa 0 = "0" ∧ strconv.Itoa (-5) = "-5" := by
  decide

/-- The digits that `Nat.toDigitsCore` puts in front of `ds`, given enough fuel. -/
theorem toDigitsCore_spec (fuel : Nat) :
    ∀ (n : Nat) (ds : List Char), n < fuel →
      ∃ pre, Nat.toDigitsCore 10 fuel n ds = pre ++ ds ∧ pre ≠ [] ∧
        (∀ c ∈ pre, c ≠ ':' ∧ c ≠ '-') ∧ decimalValue pre = n := by
  induction fuel with
  | zero => intro n ds h; omega
  | succ fuel ih =>
    intro n ds h
    have hd := digitChar_props (n % 10) (Nat.mod_lt n (by decide))
    by_cases hq : n / 10 = 0
    · refine ⟨[Nat.digitChar (n % 10)], ?_, by simp, ?_, ?_⟩
      · simp [Nat.toDigitsCore, hq]
      · intro c hc
        simp only [List.mem_singleton] at hc
        subst hc
        exact hd.2
      · simp only [decimalValue, List.foldl_cons, List.foldl_nil, hd.1]
        omega
    · have hlt : n / 10 < fuel := by omega
      obtain ⟨pre, hpre, _, hchars, hval⟩ := ih (n / 10) (Nat.digitChar (n % 10) :: ds) hlt
      refine ⟨pre ++ [Nat.digitChar (n % 10)], ?_, by simp, ?_, ?_⟩
      · simp [Nat.toDigitsCore, hq, hpre]
      · intro c hc
        rcases List.mem_append.mp hc with hc | hc
        · exact hchars c hc
        · simp only [List.mem_singleton] at hc
          subst hc
          exact hd.2
      · unfold decimalValue at hval ⊢
        rw [List.foldl_append, hval]
        simp only [List.foldl_cons, List.foldl_nil, hd.1]
        omega

theorem repr_data_spec (n : Nat) :
    (Nat.repr n).data ≠ [] ∧ (∀ c ∈ (Nat.repr n).data, c ≠ ':' ∧ c ≠ '-') ∧
      decimalValue (Nat.repr n).data = n := by
  obtain ⟨pre, hpre, hne, hchars, hval⟩ := toDigitsCore_spec (n + 1) n [] (Nat.lt_succ_self n)
  have hdata : (Nat.repr n).data = pre := by
    simpa [Nat.repr, Nat.toDigits, List.asString] using hpre
  rw [hdata]
  exact ⟨hne, hchars, hval⟩

theorem Itoa_data_ofNat (n : Nat) : (strconv.Itoa (Int.ofNat n)).data = (Nat.repr n).data := rfl

theorem Itoa_data_negSucc (n : Nat) :
    (strconv.Itoa (Int.negSucc n)).data = '-' :: (Nat.repr (n + 1)).data := by
  simp [strconv.Itoa, String.data_append]

/-- The text of `strconv.Itoa` holds no colon. -/
theorem Itoa_no_colon (i : Int) : ':' ∉ (strconv.Itoa i).data := by
  intro hmem
  cases i with
  | ofNat n =>
    rw [Itoa_data_ofNat] at hmem
    exact ((repr_data_spec n).2.1 _ hmem).1 rfl
  | negSucc n =>
    rw [Itoa_data_negSucc] at hmem
    rcases List.mem_cons.mp hmem with h | h
    · exact absurd h (by decide)
    · exact ((repr_data_spec (n + 1)).2.1 _ h).1 rfl

/-- Different numbers have different texts. -/
theorem Itoa_injective (i j : Int) (h : (strconv.Itoa i).data = (strconv.Itoa j).data) :
    i = j := by
  have hhead : ∀ n m : Nat, (Nat.repr n).data ≠ '-' :: (Nat.repr m).data := by
    intro n m heq
    obtain ⟨hne, hchars, _⟩ := repr_data_spec n
    cases hd : (Nat.repr n).data with
    | nil => exact hne hd
    | cons c rest =>
      rw [hd] at heq hchars
      have hc : c = '-' := by
        injection heq
      exact (hchars c (List.mem_cons_self c rest)).2 hc
  cases i with
  | ofNat n =>
    cases j with
    | ofNat m =>
      rw [Itoa_data_ofNat, Itoa_data_ofNat] at h
      have hv := congrArg decimalValue h
      rw [(repr_data_spec n).2.2, (repr_data_spec m).2.2] at hv
      rw [hv]
    | negSucc m =>
      rw [Itoa_data_ofNat, Itoa_data_negSucc] at h
      exact absurd h (hhead n (m + 1))
  | negSucc n =>
    cases j with
    | ofNat m =>
      rw [Itoa_data_ofNat, Itoa_data_negSucc] at h
      exact absurd h.symm (hhead m (n + 1))
    | negSucc m =>
      rw [Itoa_data_negSucc, Itoa_data_negSucc] at h
      have h2 : (Nat.repr (n + 1)).data = (Nat.repr (m + 1)).data := by
        injection h
      have hv := congrArg decimalValue h2
      rw [(repr_data_spec (n + 1)).2.2, (repr_data_spec (m + 1)).2.2] at hv
      have hnm : n = m := by omega
      rw [hnm]

/-- Two texts cut at the first separator agree part by part. -/
theorem split_at_first (c : Char) :
    ∀ (x1 x2 y1 y2 : List Char), c ∉ x1 → c ∉ x2 → x1 ++ c :: y1 = x2 ++ c :: y2 →
      x1 = x2 ∧ y1 = y2 := by
  intro x1
  induction x1 with
  | nil =>
    intro x2 y1 y2 _ h2 h
    cases x2 with
    | nil => simpa using h
    | cons b rest =>
      simp only [List.nil_append, List.cons_append, List.cons.injEq] at h
      exact absurd (by rw [h.1]; exact List.mem_cons_self b rest) h2
  | cons a rest ih =>
    intro x2 y1 y2 h1 h2 h
    cases x2 with
    | nil =>
      simp only [List.nil_append, List.cons_append, List.cons.injEq] at h
      exact absurd (by rw [← h.1]; exact List.mem_cons_self a rest) h1
    | cons b rest2 =>
      simp only [List.cons_append, List.cons.injEq] at h
      have hr1 : c ∉ rest := fun hm => h1 (List.mem_cons_of_mem a hm)
      have hr2 : c ∉ rest2 := fun hm => h2 (List.mem_cons_of_mem b hm)
      obtain ⟨hx, hy⟩ := ih rest2 y1 y2 hr1 hr2 h.2
      exact ⟨by rw [h.1, hx], hy⟩

/-- Two texts cut at the last separator agree part by part. -/
theorem split_at_last (c : Char) (x1 x2 y1 y2 : List Char) (h1 : c ∉ y1) (h2 : c ∉ y2)
    (h : x1 ++ c :: y1 = x2 ++ c :: y2) : x1 = x2 ∧ y1 = y2 := by
  have hrev : y1.reverse ++ c :: x1.reverse = y2.reverse ++ c :: x2.reverse := by
    have := congrArg List.reverse h
    simpa using this
  obtain ⟨hy, hx⟩ := split_at_first c y1.reverse y2.reverse x1.reverse x2.reverse
    (by simpa using h1) (by simpa using h2) hrev
  exact ⟨List.reverse_injective hx, List.reverse_injective hy⟩

/-- The characters of the key of an endpoint without FQDN. -/
theorem contextKey_data (e : Endpoint) :
    (contextKey e (e.Address ++ ":" ++ strconv.Itoa e.Port)).data =
      (e.Id.data ++ '-' :: e.Address.data ++ ':' :: (strconv.Itoa e.Port).data) ++
        '-' :: e.Transport.data := by
  simp [contextKey, String.data_append]

/-- The address that `resolveAddress` returns without error for an endpoint without
FQDN. -/
theorem resolveAddress_noFQDN_ret (net : Net) (e : Endpoint) (a : String)
    (hF : e.FQDN = "") (h : resolveAddress net e = .ret (a, none)) :
    a = e.Address ++ ":" ++ strconv.Itoa e.Port := by
  rw [resolveAddress_noFQDN net e hF] at h
  split at h
  · simp at h
  · simp only [Outcome.ret.injEq, Prod.mk.injEq, and_true] at h
    exact h.symm

/-- C10, against the claim: two endpoints without FQDN that pass the validation of
the destination, with different Id and different Address, have the same key
`a-b-c:8080-tcp`, and after dialling the first, `Dial` rejects the second as
already registered. -/
theorem contextKey_collision :
    endpointDashId.FQDN = "" ∧ endpointDashAddress.FQDN = "" ∧
      resolveAddress netLookupFails endpointDashId = .ret ("c:8080", none) ∧
      resolveAddress netLookupFails endpointDashAddress = .ret ("b-c:8080", none) ∧
      contextKey endpointDashId "c:8080" = "a-b-c:8080-tcp" ∧
      contextKey endpointDashAddress "b-c:8080" = "a-b-c:8080-tcp" ∧
      endpointDashId.Id ≠ endpointDashAddress.Id ∧
      endpointDashId.Address ≠ endpointDashAddress.Address ∧
      (Dial netLookupFails (Dial netLookupFails emptyBus endpointDashId).1
        endpointDashAddress).2 = .ret (none, some BusError_EndpointAlreadyRegistered) := by
  decide

/-- C10, amended: for two endpoints without FQDN that pass the validation of the
destination, when neither Transport holds the character `-`, and either neither
Id holds it or neither Address holds it, equal keys give equal Id, Address, Port
and Transport. -/
theorem contextKey_injective (net : Net) (e1 e2 : Endpoint) (a1 a2 : String)
    (hF1 : e1.FQDN = "") (hF2 : e2.FQDN = "")
    (h1 : resolveAddress net e1 = .ret (a1, none))
    (h2 : resolveAddress net e2 = .ret (a2, none))
    (hT1 : '-' ∉ e1.Transport.data) (hT2 : '-' ∉ e2.Transport.data)
    (hsep : ('-' ∉ e1.Id.data ∧ '-' ∉ e2.Id.data) ∨
      ('-' ∉ e1.Address.data ∧ '-' ∉ e2.Address.data))
    (hkey : contextKey e1 a1 = contextKey e2 a2) :
    e1.Id = e2.Id ∧ e1.Address = e2.Address ∧ e1.Port = e2.Port ∧
      e1.Transport = e2.Transport := by
  rw [resolveAddress_noFQDN_ret net e1 a1 hF1 h1,
    resolveAddress_noFQDN_ret net e2 a2 hF2 h2] at hkey
  have hdata := congrArg String.data hkey
  rw [contextKey_data, contextKey_data] at hdata
  obtain ⟨hmid, htr⟩ := split_at_last '-' _ _ _ _ hT1 hT2 hdata
  have hmid2 : (e1.Id.data ++ '-' :: e1.Address.data) ++ ':' :: (strconv.Itoa e1.Port).data =
      (e2.Id.data ++ '-' :: e2.Address.data) ++ ':' :: (strconv.Itoa e2.Port).data := by
    simpa [List.append_assoc] using hmid
  obtain ⟨hleft, hport⟩ := split_at_last ':' _ _ _ _ (Itoa_no_colon e1.Port)
    (Itoa_no_colon e2.Port) hmid2
  have hia : e1.Id.data = e2.Id.data ∧ e1.Address.data = e2.Address.data := by
    rcases hsep with ⟨hi1, hi2⟩ | ⟨ha1, ha2⟩
    · exact split_at_first '-' _ _ _ _ hi1 hi2 hleft
    · exact split_at_last '-' _ _ _ _ ha1 ha2 hleft
  exact ⟨String.ext hia.1, String.ext hia.2, Itoa_injective _ _ hport, String.ext htr⟩

/-- Two endpoints that differ in `BufferSize` alone have the same key. -/
theorem contextKey_injective_witness :
    sampleEndpoint.FQDN = "" ∧ endpointUnbuffered.FQDN = "" ∧
      resolveAddress netLookupFails sampleEndpoint = .ret ("10.0.0.1:8080", none) ∧
      resolveAddress netLookupFails endpointUnbuffered = .ret ("10.0.0.1:8080", none) ∧
      contextKey sampleEndpoint "10.0.0.1:8080" = contextKey endpointUnbuffered "10.0.0.1:8080" ∧
      (sampleEndpoint.Id = endpointUnbuffered.Id ∧
        sampleEndpoint.Address = endpointUnbuffered.Address ∧
        sampleEndpoint.Port = endpointUnbuffered.Port ∧
        sampleEndpoint.Transport = endpointUnbuffered.Transport) :=
  ⟨rfl, rfl, by decide, by decide, by decide,
    contextKey_injective netLookupFails sampleEndpoint endpointUnbuffered "10.0.0.1:8080"
      "10.0.0.1:8080" rfl rfl (by decide) (by decide) (by decide) (by decide)
      (Or.inl ⟨by decide, by decide⟩) (by decide)⟩

end Bus
